import Mathlib

/-!
Shallow embedding of the queue / session / parsing logic of
`src/app/common.py` and `src/app/app.py` (a SteamCMD download-and-compress
web app), together with theorems settling the specification claims.

Conventions:
* Python lists become `List`; Python strings become `String`.
* Wall-clock times and byte counts that the Python code handles as floats
  are modelled as `ℚ` (exact rationals).
* Fallible operations (subprocess calls, filesystem probes) are modelled by
  explicit oracle parameters describing their outcome, so the embedded
  functions are total.
-/

namespace GameDL

/-! ## Queue status log (`common.py` lines 690-724, 763-766)

`queue_status` is a Python list of strings.  Two of the three append sites
(`add_to_queue` line 763-766 and the two completion appends in
`process_queue` lines 711-714 / 718-721) follow the append with
`if len(queue_status) > 100: queue_status.pop(0)`.  The pickup append at
`process_queue` lines 700-701 appends without the trim. -/

/-- `queue_status.append(msg)` followed by
`if len(queue_status) > 100: queue_status.pop(0)`
(`common.py` lines 712-714, 719-721, 764-766). -/
def appendCapped (log : List String) (msg : String) : List String :=
  if (log ++ [msg]).length > 100 then (log ++ [msg]).tail else log ++ [msg]

/-- An append event on the shared status log: at enqueue
(`add_to_queue`), at worker pickup of a task, or at worker completion
(`process_queue`). -/
inductive QEvent where
  | enqueue (msg : String)
  | pickup (msg : String)
  | complete (msg : String)
deriving DecidableEq, Repr

/-- One append on the shared `queue_status` list.  Enqueue and completion
appends trim (`common.py` lines 763-766, 711-714/718-721); the pickup
append (`common.py` lines 700-701) is a bare `queue_status.append(...)`. -/
def qStep (log : List String) : QEvent → List String
  | .enqueue m => appendCapped log m
  | .pickup m => log ++ [m]
  | .complete m => appendCapped log m

/-- Run a sequence of status-log append events from an empty log. -/
def runLog (es : List QEvent) : List String :=
  es.foldl qStep []

theorem appendCapped_length_le {log : List String} (m : String)
    (h : log.length ≤ 100) : (appendCapped log m).length ≤ 100 := by
  unfold appendCapped
  have hlen : (log ++ [m]).length = log.length + 1 := by simp
  by_cases hgt : (log ++ [m]).length > 100
  · simp only [hgt, if_true, List.length_tail]
    omega
  · simp only [hgt, if_false]
    omega

theorem qStep_no_pickup_length_le {log : List String} {e : QEvent}
    (h : log.length ≤ 100) (hp : ∀ m, e ≠ .pickup m) :
    (qStep log e).length ≤ 100 := by
  cases e with
  | enqueue m => exact appendCapped_length_le m h
  | pickup m => exact absurd rfl (hp m)
  | complete m => exact appendCapped_length_le m h

theorem runLog_aux_length_le (es : List QEvent) (log : List String)
    (h : log.length ≤ 100) (hp : ∀ m, QEvent.pickup m ∉ es) :
    (es.foldl qStep log).length ≤ 100 := by
  induction es generalizing log with
  | nil => simpa using h
  | cons e es ih =>
    simp only [List.foldl_cons]
    apply ih
    · apply qStep_no_pickup_length_le h
      intro m he
      exact hp m (by simp [he])
    · intro m hm
      exact hp m (by simp [hm])

theorem appendCapped_evicts {log : List String} (m : String)
    (h : log.length = 100) : appendCapped log m = log.tail ++ [m] := by
  cases log with
  | nil => simp at h
  | cons a as =>
    have hgt : ((a :: as) ++ [m]).length > 100 := by
      simp only [List.length_append, List.length_cons, List.length_singleton]
      simp at h
      omega
    simp only [appendCapped, if_pos hgt]
    simp

/-! ## Single-worker scheduler (`common.py` lines 690-744)

`download_queue` is a FIFO `Queue`; `add_to_queue` (line 744) does
`download_queue.put(task)`; the single daemon worker `process_queue`
(lines 694-724) loops `task = download_queue.get()` and runs the whole
download synchronously before looping.  We model the system as a state
(pending FIFO, ids of completed tasks in completion-log order) acted on by
enqueue events and worker iterations; a worker iteration is atomic because
the worker thread is unique and processes each task to completion. -/

structure QTask where
  id : String
  steamUrl : String
deriving DecidableEq, Repr

structure SchedState where
  pending : List QTask
  completedIds : List String
deriving DecidableEq, Repr

inductive SchedEvent where
  | enqueue (t : QTask)
  | workerRun
deriving DecidableEq, Repr

/-- One scheduler step: `enqueue` is `download_queue.put(task)`
(`common.py` line 744); `workerRun` is one iteration of the worker loop
(`common.py` lines 696-724): pop the head of the FIFO, process it to
completion, and record its terminal status-log entry (if the queue is
empty, `download_queue.get()` blocks, so the state is unchanged). -/
def schedStep (s : SchedState) : SchedEvent → SchedState
  | .enqueue t => { s with pending := s.pending ++ [t] }
  | .workerRun =>
    match s.pending with
    | [] => s
    | t :: rest => { pending := rest, completedIds := s.completedIds ++ [t.id] }

/-- Run a sequence of scheduler events from the empty initial state. -/
def runSched (es : List SchedEvent) : SchedState :=
  es.foldl schedStep ⟨[], []⟩

/-- The ids of the tasks enqueued by an event sequence, in enqueue order. -/
def enqueuedIds (es : List SchedEvent) : List String :=
  es.filterMap fun e =>
    match e with
    | .enqueue t => some t.id
    | .workerRun => none

theorem schedStep_invariant (s : SchedState) (e : SchedEvent) :
    (schedStep s e).completedIds ++ (schedStep s e).pending.map QTask.id
      = s.completedIds ++ s.pending.map QTask.id ++ enqueuedIds [e] := by
  cases e with
  | enqueue t => simp [schedStep, enqueuedIds]
  | workerRun =>
    cases hp : s.pending with
    | nil => simp [schedStep, hp, enqueuedIds]
    | cons t rest => simp [schedStep, hp, enqueuedIds]

theorem runSched_aux (es : List SchedEvent) (s : SchedState) :
    (es.foldl schedStep s).completedIds ++ (es.foldl schedStep s).pending.map QTask.id
      = s.completedIds ++ s.pending.map QTask.id ++ enqueuedIds es := by
  induction es generalizing s with
  | nil => simp [enqueuedIds]
  | cons e es ih =>
    simp only [List.foldl_cons]
    rw [ih (schedStep s e), schedStep_invariant]
    have : enqueuedIds (e :: es) = enqueuedIds [e] ++ enqueuedIds es := by
      show enqueuedIds ([e] ++ es) = enqueuedIds [e] ++ enqueuedIds es
      simp only [enqueuedIds, List.filterMap_append]
    rw [this, List.append_assoc]

set_option maxRecDepth 10000 in
/-- C1 (counterexample): the claim "the log's length is at most 100
immediately after each append" fails on the code: the pickup append in
`process_queue` (`common.py` lines 700-701) appends without trimming, so
after 101 worker-pickup appends the shared status log has length 101. -/
theorem queueLog_cap_counterexample :
    (runLog (List.replicate 101 (QEvent.pickup "p"))).length = 101 := by
  decide

set_option maxRecDepth 10000 in
/-- C1 (amended): appends performed at enqueue and at worker completion
keep the shared status log at length ≤ 100, evicting the oldest entry
first when an append would exceed 100; in particular 150 successive
capped appends leave exactly the last 100 entries.  The pickup append
does not trim, so sequences containing pickup appends can exceed 100. -/
theorem queueLog_cap_amended :
    (∀ es : List QEvent, (∀ m, QEvent.pickup m ∉ es) →
      (runLog es).length ≤ 100)
    ∧ (∀ (log : List String) (m : String), log.length = 100 →
      appendCapped log m = log.tail ++ [m])
    ∧ ((List.range 150).map toString).foldl appendCapped []
      = ((List.range 150).map toString).drop 50 := by
  refine ⟨?_, ?_, by decide⟩
  · intro es hes
    exact runLog_aux_length_le es [] (by simp) hes
  · intro log m h
    exact appendCapped_evicts m h

/-- C1 (witness for the amended theorem): discharging the hypotheses at
concrete inputs. -/
theorem queueLog_cap_amended_witness :
    (runLog [QEvent.enqueue "a", QEvent.complete "b"]).length ≤ 100
    ∧ appendCapped ((List.range 100).map toString) "new"
      = ((List.range 100).map toString).tail ++ ["new"] :=
  ⟨queueLog_cap_amended.1 [QEvent.enqueue "a", QEvent.complete "b"]
      (by intro m; simp),
   queueLog_cap_amended.2.1 ((List.range 100).map toString) "new" (by simp)⟩

/-- C4: tasks are processed strictly in enqueue order.  After any sequence
of enqueue events and worker iterations, the completed-task ids followed by
the still-pending ids equal the full enqueue order; hence the completion
log entries (completed ids) are a prefix of the enqueue order — they appear
in enqueue order, never out of order. -/
theorem taskQueue_fifo (es : List SchedEvent) :
    (runSched es).completedIds ++ (runSched es).pending.map QTask.id
      = enqueuedIds es
    ∧ (runSched es).completedIds <+: enqueuedIds es := by
  have h := runSched_aux es ⟨[], []⟩
  simp only [runSched] at *
  constructor
  · simpa using h
  · exact ⟨(es.foldl schedStep ⟨[], []⟩).pending.map QTask.id, by simpa using h⟩

/-! ## Durable task metadata (`common.py` lines 730-769, 780-806)

`add_to_queue` builds the in-memory task dict (with credentials) and then
writes a `public_task` dict — id, anonymous, steam_url, output_path,
resume, timestamp, status='queued' and no credential fields — to
`.queue/{task_id}.json`.  The worker `process_queue` never touches these
files.  `load_queue_tasks` reads every `.json` file, skips records whose
status is 'completed' or 'failed', and re-enqueues the rest via
`add_to_queue("", "", "", ...)`. -/

/-- A JSON scalar as written by `json.dump` for the task record. -/
inductive JVal where
  | s (v : String)
  | b (v : Bool)
deriving DecidableEq, Repr

/-- The parameters `add_to_queue` receives, plus the values the code
obtains from its environment (`secrets.token_hex(4)` for the id,
`datetime.now().isoformat()` for the timestamp). -/
structure TaskParams where
  username : String
  password : String
  steamGuardCode : String
  anonymous : Bool
  steamUrl : String
  outputPath : String
  resume : Bool
  taskId : String
  timestamp : String
deriving DecidableEq, Repr

/-- The `public_task` dict written by `add_to_queue`
(`common.py` lines 751-759): key/value pairs in source order. -/
def publicRecord (p : TaskParams) : List (String × JVal) :=
  [("id", .s p.taskId),
   ("anonymous", .b p.anonymous),
   ("steam_url", .s p.steamUrl),
   ("output_path", .s p.outputPath),
   ("resume", .b p.resume),
   ("timestamp", .s p.timestamp),
   ("status", .s "queued")]

/-- The durable `.queue` directory: one JSON record per file name. -/
abbrev MetaStore := List (String × List (String × JVal))

/-- Effect of `add_to_queue` on the `.queue` directory
(`common.py` lines 747-761): exactly one record file is written. -/
def addToQueueStore (store : MetaStore) (p : TaskParams) : MetaStore :=
  store ++ [(p.taskId, publicRecord p)]

/-- Effect of one worker iteration of `process_queue`
(`common.py` lines 694-724) on the `.queue` directory: the worker appends
to `queue_status` and calls `download_and_compress_from_url`, but never
opens or rewrites any `.queue/{task_id}.json` file. -/
def processQueueStoreAfterCompletion (store : MetaStore) : MetaStore :=
  store

/-- `common.py` line 794: `task.get('status') in ['completed', 'failed']`. -/
def isTerminalStatus (rec : List (String × JVal)) : Bool :=
  match rec.lookup "status" with
  | some (.s "completed") => true
  | some (.s "failed") => true
  | _ => false

/-- The task dict built by `add_to_queue` (`common.py` lines 733-743),
including the credential fields kept only in memory. -/
structure MemTask where
  username : String
  password : String
  steamGuardCode : String
  anonymous : Bool
  steamUrl : String
  outputPath : String
  resume : Bool
deriving DecidableEq, Repr

/-- Reading one saved record in `load_queue_tasks`
(`common.py` lines 789-803): skip terminal statuses, then re-enqueue via
`add_to_queue("", "", "", task['anonymous'], task['steam_url'],
task['output_path'], task.get('resume', False))`.  A record missing a
field read with `[]` raises `KeyError`, which the per-file `except`
swallows (the file is skipped). -/
def loadTask (rec : List (String × JVal)) : Option MemTask :=
  if isTerminalStatus rec then none
  else
    match rec.lookup "anonymous", rec.lookup "steam_url",
        rec.lookup "output_path" with
    | some (.b anon), some (.s url), some (.s out) =>
      some { username := "", password := "", steamGuardCode := "",
             anonymous := anon, steamUrl := url, outputPath := out,
             resume := match rec.lookup "resume" with
                       | some (.b r) => r
                       | _ => false }
    | _, _, _ => none

/-- `load_queue_tasks` over the records found in the `.queue` directory
(`common.py` lines 780-806). -/
def loadQueueTasks (records : List (List (String × JVal))) : List MemTask :=
  records.filterMap loadTask

/-- A well-formed saved record: what a record written by `add_to_queue`
looks like after its status field may have been set to an arbitrary
value. -/
structure StoredRec where
  id : String
  anonymous : Bool
  steamUrl : String
  outputPath : String
  resume : Bool
  timestamp : String
  status : String
deriving DecidableEq, Repr

/-- JSON encoding of a well-formed saved record, in the field order
`add_to_queue` writes. -/
def encodeRec (r : StoredRec) : List (String × JVal) :=
  [("id", .s r.id),
   ("anonymous", .b r.anonymous),
   ("steam_url", .s r.steamUrl),
   ("output_path", .s r.outputPath),
   ("resume", .b r.resume),
   ("timestamp", .s r.timestamp),
   ("status", .s r.status)]

theorem loadTask_encodeRec (r : StoredRec) :
    loadTask (encodeRec r) =
      if r.status = "completed" ∨ r.status = "failed" then none
      else some { username := "", password := "", steamGuardCode := "",
                  anonymous := r.anonymous, steamUrl := r.steamUrl,
                  outputPath := r.outputPath, resume := r.resume } := by
  have hterm : isTerminalStatus (encodeRec r)
      = (r.status = "completed" ∨ r.status = "failed" : Bool) := by
    simp only [isTerminalStatus, encodeRec, List.lookup]
    by_cases h1 : r.status = "completed" <;> by_cases h2 : r.status = "failed" <;>
      simp_all
  by_cases h : r.status = "completed" ∨ r.status = "failed"
  · simp only [loadTask, hterm, h, if_pos]
    simp [h]
  · simp only [loadTask, hterm]
    simp only [h, if_false]
    have : ((r.status = "completed" ∨ r.status = "failed" : Bool) = true) ↔
        (r.status = "completed" ∨ r.status = "failed") := by simp
    simp only [encodeRec, List.lookup]
    simp [h]

/-- C3: on startup, `load_queue_tasks` re-enqueues every well-formed saved
record whose status is not 'completed'/'failed', exactly once each and in
scan order, each with empty credential placeholders (username, password,
guard code all `""`); records marked completed or failed are skipped. -/
theorem loadQueue_restart (recs : List StoredRec) :
    loadQueueTasks (recs.map encodeRec)
      = (recs.filter fun r =>
          !(r.status == "completed" || r.status == "failed")).map
          fun r => { username := "", password := "", steamGuardCode := "",
                     anonymous := r.anonymous, steamUrl := r.steamUrl,
                     outputPath := r.outputPath, resume := r.resume } := by
  induction recs with
  | nil => rfl
  | cons r rs ih =>
    simp only [List.map_cons, loadQueueTasks, List.filterMap_cons,
      loadTask_encodeRec, List.filter_cons]
    by_cases h : r.status = "completed" ∨ r.status = "failed"
    · have hb : (r.status == "completed" || r.status == "failed") = true := by
        simp [h]
      simp only [h, if_pos, hb, Bool.not_true]
      simpa [loadQueueTasks] using ih
    · have hb : (r.status == "completed" || r.status == "failed") = false := by
        push_neg at h
        simp [h.1, h.2]
      simp only [h, if_neg, hb, Bool.not_false, if_true, List.map_cons]
      simp only [loadQueueTasks] at ih
      simp [ih]

/-- A concrete credentialed task used to evaluate the metadata-lifecycle
behaviour. -/
def sampleTask : TaskParams where
  username := "alice"
  password := "hunter2"
  steamGuardCode := "GGGGG"
  anonymous := false
  steamUrl := "https://store.steampowered.com/app/440"
  outputPath := "/data/out/game.7z"
  resume := false
  taskId := "ab12cd34"
  timestamp := "2026-01-01T00:00:00"

/-- C2 (code evaluated at the failing input): `add_to_queue` writes
exactly one durable record, whose keys carry no credential field; but the
worker never updates that record on completion — after the task finishes,
the `.queue` store is unchanged and the record's status is still
'queued', contradicting "updated (status only) on completion" (and hence
`load_queue_tasks` can never see a 'completed'/'failed' status). -/
theorem metadata_never_updated_on_completion :
    addToQueueStore [] sampleTask = [("ab12cd34", publicRecord sampleTask)]
    ∧ (publicRecord sampleTask).map Prod.fst
      = ["id", "anonymous", "steam_url", "output_path", "resume",
         "timestamp", "status"]
    ∧ "username" ∉ (publicRecord sampleTask).map Prod.fst
    ∧ "password" ∉ (publicRecord sampleTask).map Prod.fst
    ∧ "steam_guard_code" ∉ (publicRecord sampleTask).map Prod.fst
    ∧ processQueueStoreAfterCompletion (addToQueueStore [] sampleTask)
      = addToQueueStore [] sampleTask
    ∧ (publicRecord sampleTask).lookup "status" = some (.s "queued") := by
  decide

/-! ## String containment (Python's `needle in haystack`) -/

/-- Does `hay` start with `needle`? -/
def subAt (needle hay : List Char) : Bool :=
  match needle, hay with
  | [], _ => true
  | _ :: _, [] => false
  | a :: as, b :: bs => a = b && subAt as bs

/-- Does `needle` occur anywhere in the haystack? -/
def hasSub (needle : List Char) : List Char → Bool
  | [] => subAt needle []
  | c :: t => subAt needle (c :: t) || hasSub needle t

/-- Python's `needle in hay` on strings. -/
def strContains (hay needle : String) : Bool :=
  hasSub needle.toList hay.toList

/-- Python's `line.strip()`: drop leading and trailing whitespace. -/
def pyStrip (s : String) : String :=
  String.mk
    (((s.toList.dropWhile Char.isWhitespace).reverse.dropWhile
      Char.isWhitespace).reverse)

/-! ## Login retry (`common.py` lines 161-233 and 395-438)

`verify_steam_login` (lines 181-233) runs up to `retries = 3` SteamCMD
login attempts, classifying each attempt's outcome from its stdout text.
The login step inside `download_and_compress` (lines 395-438) runs a
single attempt with the same classification and no retry loop.  An
attempt's outcome is modelled by an oracle from the attempt index to what
the subprocess produced. -/

/-- Outcome of one `steamcmd +login` subprocess: captured stdout/stderr,
a `communicate` timeout, or a raised exception. -/
inductive LoginAttempt where
  | output (stdout : String) (stderr : String)
  | timeout
  | exc (e : String)

/-- The retry loop of `verify_steam_login` (`common.py` lines 181-233).
`attempt` is the Python loop index, `fuel` the remaining iterations of
`range(retries)`; the result pairs the returned message with the number
of login subprocesses spawned.  On timeout the code sets a message and
`continue`s (no back-off sleep, and the message is never returned); on a
classified failure it retries while `attempt < retries - 1` (after a 10s
sleep) and otherwise returns the last classified reason; on an exception
it retries on the same condition.  When the loop exhausts, the generic
"after multiple attempts" message is returned. -/
def verifyLoop (stub : Nat → LoginAttempt) : Nat → Nat → String × Nat
  | attempt, 0 => ("Error: Failed to verify login after multiple attempts.", attempt)
  | attempt, fuel + 1 =>
    match stub attempt with
    | .timeout => verifyLoop stub (attempt + 1) fuel
    | .output out _err =>
      if strContains out "Waiting for user info...OK" then
        ("Steam login verified successfully.", attempt + 1)
      else
        let msg :=
          if strContains out "Steam Guard" || strContains out "Two-factor code" then
            "Error: Steam Guard code required or invalid."
          else if strContains out "Invalid Password" ||
              strContains out "Login Failure" then
            "Error: Invalid username or password."
          else "Error: Login failed: " ++ pyStrip out
        if fuel > 0 then verifyLoop stub (attempt + 1) fuel
        else (msg, attempt + 1)
    | .exc e =>
      if fuel > 0 then verifyLoop stub (attempt + 1) fuel
      else ("Error: Exception during login: " ++ e, attempt + 1)

/-- `verify_steam_login`'s attempt loop with `retries = 3`
(`common.py` line 181). -/
def verifySteamLogin (stub : Nat → LoginAttempt) : String × Nat :=
  verifyLoop stub 0 3

/-- The single login attempt of `download_and_compress`
(`common.py` lines 395-438): classify the one subprocess outcome. -/
def sessionLoginMsg : LoginAttempt → Except String Unit
  | .timeout => .error "Login process timed out. Steam servers may be busy."
  | .output out _err =>
    if strContains out "Waiting for user info...OK" then .ok ()
    else if strContains out "Steam Guard" || strContains out "Two-factor code" then
      .error "Steam Guard code required or invalid. Check your email or authenticator."
    else if strContains out "Invalid Password" || strContains out "Login Failure" then
      .error "Invalid username or password."
    else .error ("Login failed: " ++ pyStrip out)
  | .exc e => .error ("Exception during login: " ++ e)

/-- The login step of a session (`download_and_compress`): exactly one
subprocess is spawned — there is no retry loop in lines 395-438. -/
def sessionLogin (stub : Nat → LoginAttempt) : Except String Unit × Nat :=
  (sessionLoginMsg (stub 0), 1)

theorem verifyLoop_attempts_le (stub : Nat → LoginAttempt) :
    ∀ (f a : Nat), (verifyLoop stub a f).2 ≤ a + f := by
  intro f
  induction f with
  | zero => intro a; simp [verifyLoop]
  | succ f ih =>
    intro a
    unfold verifyLoop
    cases stub a with
    | timeout => exact le_trans (ih (a + 1)) (by omega)
    | output out err =>
      dsimp only
      split
      · omega
      · split
        · exact le_trans (ih (a + 1)) (by omega)
        · omega
    | exc e =>
      dsimp only
      split
      · exact le_trans (ih (a + 1)) (by omega)
      · omega

/-- C5 (counterexample): the claim says every session's login step is
retried up to exactly 3 attempts; but the login step of
`download_and_compress` (`common.py` lines 395-438) has no retry loop —
with a stub reporting `Invalid Password` on every attempt, the session's
login fails after exactly 1 attempt, not 3. -/
theorem login_retry_counterexample :
    (sessionLogin fun _ => .output "Invalid Password" "").2 = 1
    ∧ (sessionLogin fun _ => .output "Invalid Password" "").1
      = .error "Invalid username or password." := by
  constructor
  · rfl
  · rfl

/-- C5 (amended): the standalone verification `verify_steam_login` makes
at most 3 attempts; with `Invalid Password` on all attempts it returns
the last classified reason after exactly 3 attempts; a success on attempt
2 stops after 2 attempts; with timeouts on all attempts it makes 3
attempts but returns the generic "after multiple attempts" message (not
the timeout reason, and with no back-off sleep on the timeout path).  The
session login step inside `download_and_compress` always makes exactly 1
attempt. -/
theorem login_retry_amended :
    (∀ stub, (verifySteamLogin stub).2 ≤ 3)
    ∧ verifySteamLogin (fun _ => .output "Invalid Password" "")
      = ("Error: Invalid username or password.", 3)
    ∧ verifySteamLogin (fun i =>
        if i = 0 then .output "Invalid Password" ""
        else .output "Waiting for user info...OK" "")
      = ("Steam login verified successfully.", 2)
    ∧ verifySteamLogin (fun _ => .timeout)
      = ("Error: Failed to verify login after multiple attempts.", 3)
    ∧ (∀ stub, (sessionLogin stub).2 = 1) := by
  refine ⟨fun stub => verifyLoop_attempts_le stub 3 0, by decide, by decide,
    by decide, fun stub => rfl⟩

/-! ## Progress extraction (`common.py` lines 504-537, `app.py` lines 310-317)

`common.py` guards with `'%' in line` and applies
`re.search(r'(\d+)%', line)`, yielding an integer percent and nothing
else.  `app.py` applies `re.search(r'progress: ([0-9.]+)', line)`,
yielding the captured numeric token (later passed to `float`) and
nothing else.  Neither extractor produces byte counters. -/

/-- Value of the decimal digit string captured by `(\d+)` after
Python's `int(...)`. -/
def digitsToNat (ds : List Char) : Nat :=
  ds.foldl (fun n c => n * 10 + (c.toNat - '0'.toNat)) 0

/-- Try `(\d+)%` anchored at the current position: a maximal nonempty
digit run immediately followed by `'%'`. -/
def tryPercentAt (l : List Char) : Option Nat :=
  let ds := l.takeWhile Char.isDigit
  if ds.isEmpty then none
  else
    match l.dropWhile Char.isDigit with
    | '%' :: _ => some (digitsToNat ds)
    | _ => none

/-- `re.search(r'(\d+)%', line)`: leftmost position where a digit run
immediately followed by `'%'` starts; captures the run. -/
def searchPercent : List Char → Option Nat
  | [] => none
  | c :: t =>
    match tryPercentAt (c :: t) with
    | some n => some n
    | none => searchPercent t

/-- The percent extraction of the download/compress loops
(`common.py` lines 505-509): only lines containing `'%'` are examined,
and the first captured digit run before a `'%'` becomes the progress
integer. -/
def parseCommonProgress (line : String) : Option Nat :=
  if strContains line "%" then searchPercent line.toList else none

/-- Try `progress: ([0-9.]+)` anchored at the current position. -/
def tryAppAt (l : List Char) : Option (List Char) :=
  if subAt "progress: ".toList l then
    let ds := (l.drop 10).takeWhile fun c => c.isDigit || c = '.'
    if ds.isEmpty then none else some ds
  else none

/-- `re.search(r'progress: ([0-9.]+)', line)`: leftmost occurrence. -/
def searchApp : List Char → Option (List Char)
  | [] => none
  | c :: t =>
    match tryAppAt (c :: t) with
    | some ds => some ds
    | none => searchApp t

/-- The progress extraction of `app.py`'s download thread (lines
310-317): the numeric token following `progress: `, if any. -/
def parseAppProgress (line : String) : Option String :=
  (searchApp line.toList).map fun ds => String.mk ds

/-- A progress sample as the specification describes it: a percent token
and optional byte counters. -/
structure SpecSample where
  percent : String
  bytes : Option (Nat × Nat)
deriving DecidableEq, Repr

/-- Parse a nonempty `[0-9.]+` token. -/
def parseFloatTok (l : List Char) : Option (List Char × List Char) :=
  let ds := l.takeWhile fun c => c.isDigit || c = '.'
  if ds.isEmpty then none else some (ds, l.drop ds.length)

/-- Parse a nonempty digit token as a number. -/
def parseNatTok (l : List Char) : Option (Nat × List Char) :=
  let ds := l.takeWhile Char.isDigit
  if ds.isEmpty then none else some (digitsToNat ds, l.drop ds.length)

/-- Try the spec's first pattern `progress: <float> (<int> / <int>)`
anchored at the current position. -/
def specTryAt (l : List Char) : Option SpecSample :=
  if subAt "progress: ".toList l then
    match parseFloatTok (l.drop 10) with
    | none => none
    | some (p, rest) =>
      if subAt " (".toList rest then
        match parseNatTok (rest.drop 2) with
        | none => none
        | some (d, rest2) =>
          if subAt " / ".toList rest2 then
            match parseNatTok (rest2.drop 3) with
            | none => none
            | some (t, rest3) =>
              match rest3 with
              | ')' :: _ => some ⟨String.mk p, some (d, t)⟩
              | _ => none
          else none
      else none
  else none

/-- Search the spec's first pattern anywhere in the line. -/
def specSearch : List Char → Option SpecSample
  | [] => none
  | c :: t =>
    match specTryAt (c :: t) with
    | some s => some s
    | none => specSearch t

/-- The parser described by the spec's §4.2 / §8 (written from the spec's
words, for comparison with the code's extractors): a well-formed
`progress: P (D / T)` line yields percent `P` with bytes `(D, T)`; a bare
`N%` line yields percent `N` with no byte fields; anything else yields
none. -/
def specProgressParse (line : String) : Option SpecSample :=
  match specSearch line.toList with
  | some s => some s
  | none =>
    match searchPercent line.toList with
    | some n => some ⟨toString n, none⟩
    | none => none

/-- C6 (counterexample): on the spec's flagship well-formed line, the
spec's parser returns percent `50.0` with bytes `(500, 1000)`, but the
code extracts no byte counters anywhere: `common.py`'s extractor returns
none at all (the line has no `'%'`), and `app.py`'s extractor returns
only the percent token. -/
theorem progressParser_counterexample :
    specProgressParse "progress: 50.0 (500 / 1000)"
      = some ⟨"50.0", some (500, 1000)⟩
    ∧ parseCommonProgress "progress: 50.0 (500 / 1000)" = none
    ∧ parseAppProgress "progress: 50.0 (500 / 1000)" = some "50.0" := by
  decide

theorem hasSub_singleton_append (c : Char) (l : List Char) :
    hasSub [c] (l ++ [c]) = true := by
  induction l with
  | nil => simp [hasSub, subAt]
  | cons a t ih => simp [hasSub, ih]

theorem takeWhile_digits_append (ds : List Char)
    (h : ∀ c ∈ ds, c.isDigit = true) :
    (ds ++ ['%']).takeWhile Char.isDigit = ds
    ∧ (ds ++ ['%']).dropWhile Char.isDigit = ['%'] := by
  induction ds with
  | nil => constructor <;> simp [List.takeWhile, List.dropWhile]
  | cons a t ih =>
    have ha : a.isDigit = true := h a (by simp)
    have ht : ∀ c ∈ t, c.isDigit = true := fun c hc => h c (by simp [hc])
    obtain ⟨ih1, ih2⟩ := ih ht
    constructor
    · simp [List.takeWhile_cons, ha, ih1]
    · simp [List.dropWhile_cons, ha, ih2]

/-- C6 (amended): the code has two percent-only extractors and no
byte-counter extraction.  For every nonempty digit run `ds`, the line
`ds%` yields `int(ds)` from `common.py`'s extractor; `app.py`'s extractor
captures the numeric token after `progress: `; lines matching neither
pattern yield none from both. -/
theorem progressParser_amended :
    (∀ ds : List Char, ds ≠ [] → (∀ c ∈ ds, c.isDigit = true) →
      parseCommonProgress (String.mk (ds ++ ['%'])) = some (digitsToNat ds))
    ∧ parseCommonProgress "45%" = some 45
    ∧ parseCommonProgress "Downloading update: 87%" = some 87
    ∧ parseAppProgress "Update state (0x61) downloading, progress: 99.53 (8112 / 8151)"
      = some "99.53"
    ∧ parseAppProgress "45%" = none
    ∧ parseCommonProgress "hello world" = none
    ∧ parseAppProgress "hello world" = none := by
  refine ⟨?_, by decide, by decide, by decide, by decide, by decide, by decide⟩
  intro ds hne hdig
  obtain ⟨h1, h2⟩ := takeWhile_digits_append ds hdig
  have hcontains : strContains (String.mk (ds ++ ['%'])) "%" = true := by
    simpa [strContains] using hasSub_singleton_append '%' ds
  cases ds with
  | nil => exact absurd rfl hne
  | cons a t =>
    simp only [parseCommonProgress, hcontains, if_true]
    show searchPercent ((a :: t) ++ ['%']) = _
    simp only [List.cons_append, searchPercent]
    have htry : tryPercentAt ((a :: t) ++ ['%']) = some (digitsToNat (a :: t)) := by
      simp only [tryPercentAt, List.cons_append] at *
      rw [h1, h2]
      simp [hne]
    simp only [List.cons_append] at htry
    simp only [List.append_eq]
    rw [htry]

/-- C6 (witness for the amended theorem): the bare-percent part applied
at the concrete line `42%`. -/
theorem progressParser_amended_witness :
    parseCommonProgress (String.mk ['4', '2', '%'])
      = some (digitsToNat ['4', '2']) :=
  progressParser_amended.1 ['4', '2'] (by decide) (by decide)

/-! ## Remaining-time estimate and status capture
(`common.py` lines 500-538)

For a line whose extracted percent is positive, the code computes
`total_time_est = elapsed_time / (progress / 100)`,
`remaining_time = total_time_est - elapsed_time`, truncates with `int`,
splits with two `divmod`s and formats the status string.  There is no
byte-based speed, no rolling window and no averaging anywhere in the
repository.  Wall-clock quantities are modelled as `ℚ`. -/

/-- `remaining_time` as computed at `common.py` lines 512-513 (the code
evaluates it only under `progress > 0`). -/
def codeRemainingSeconds (elapsed : ℚ) (progress : Nat) : ℚ :=
  elapsed / ((progress : ℚ) / 100) - elapsed

/-- Python `int()` on a rational: truncation toward zero. -/
def pyInt (r : ℚ) : ℤ :=
  if r < 0 then ⌈r⌉ else ⌊r⌋

/-- The download status text built at `common.py` lines 510-523 for a
line with positive extracted percent: remaining time truncated, split by
`divmod` (Python floor division / modulus), and formatted. -/
def downloadProgressStatus (elapsed : ℚ) (progress : Nat) : String :=
  let remaining := pyInt (codeRemainingSeconds elapsed progress)
  let minutes0 := remaining.fdiv 60
  let seconds := remaining.fmod 60
  let hours := minutes0.fdiv 60
  let minutes := minutes0.fmod 60
  let tr :=
    if hours > 0 then
      "~" ++ toString hours ++ "h " ++ toString minutes ++ "m remaining"
    else
      "~" ++ toString minutes ++ "m " ++ toString seconds ++ "s remaining"
  "Downloading: " ++ toString progress ++ "% complete, " ++ tr

/-- What one stdout line contributes to `status_messages`
(`common.py` lines 504-538): a formatted status for a positive percent,
the stripped raw line for a zero percent or a line without `'%'`, and
nothing at all for a `'%'` line where the regex finds no match. -/
def downloadStatusLine (elapsed : ℚ) (line : String) : Option String :=
  if strContains line "%" then
    match searchPercent line.toList with
    | some progress =>
      if progress > 0 then some (downloadProgressStatus elapsed progress)
      else some (pyStrip line)
    | none => none
  else some (pyStrip line)

/-- The captured status log of the download loop.  `username` and
`anonymous` are in scope in `download_and_compress` but the capture loop
never consults them. -/
def statusMessagesFor (username : String) (anonymous : Bool)
    (lines : List (ℚ × String)) : List String :=
  lines.filterMap fun p => downloadStatusLine p.1 p.2

/-- Per-interval speeds of a byte-progress sample sequence (written from
the spec's words, §4.2: speed = byte delta / elapsed seconds between
consecutive samples). -/
def specSpeeds (samples : List (ℚ × ℚ)) : List ℚ :=
  (samples.zip samples.tail).map fun p => (p.2.2 - p.1.2) / (p.2.1 - p.1.1)

/-- The spec's rolling window: the last at-most-10 non-zero per-interval
speeds. -/
def specWindow (samples : List (ℚ × ℚ)) : List ℚ :=
  let l := (specSpeeds samples).filter fun s => decide (s ≠ 0)
  l.drop (l.length - 10)

/-- The spec's transfer-speed estimate: arithmetic mean of the window
(written from the spec's words, §4.2). -/
def specAvgSpeed (samples : List (ℚ × ℚ)) : ℚ :=
  let w := specWindow samples
  if w.length = 0 then 0 else w.sum / w.length

/-- The spec's ETA: remaining bytes divided by the average speed; none
when there is no sample or the average is zero (written from the spec's
words, §4.2). -/
def specEta (total : ℚ) (samples : List (ℚ × ℚ)) : Option ℚ :=
  match samples.getLast? with
  | none => none
  | some last =>
    let avg := specAvgSpeed samples
    if avg = 0 then none else some ((total - last.2) / avg)

theorem specSpeeds_sample : specSpeeds [(0, 0), (10, 400), (100, 500)] = [40, 10/9] := by
  simp [specSpeeds, List.zip]
  norm_num

theorem specWindow_sample : specWindow [(0, 0), (10, 400), (100, 500)] = [40, 10/9] := by
  simp only [specWindow, specSpeeds_sample]
  norm_num [List.filter]

theorem specAvgSpeed_sample :
    specAvgSpeed [(0, 0), (10, 400), (100, 500)] = 185/9 := by
  simp only [specAvgSpeed, specWindow_sample]
  norm_num

theorem specEta_sample :
    specEta 2000 [(0, 0), (10, 400), (100, 500)] = some (2700 / 37) := by
  simp only [specEta, specAvgSpeed_sample, List.getLast?]
  norm_num

theorem pyInt_sample : pyInt (codeRemainingSeconds 100 25) = 300 := by
  have h : codeRemainingSeconds 100 25 = 300 := by norm_num [codeRemainingSeconds]
  rw [pyInt, h]
  rw [if_neg (by norm_num)]
  rw [show ((300:ℚ)) = ((300:ℤ):ℚ) by norm_num, Int.floor_intCast]

/-- C7 (counterexample): with samples (t=0, 0 B), (t=10, 400 B),
(t=100, 500 B) of 2000 B total (25%), the spec's windowed-average ETA is
(2000-500)/((40 + 10/9)/2) = 2700/37 ≈ 73 s, but the code — which keeps
no byte counters at all — reports elapsed/(p/100) - elapsed = 300 s from
the percent alone.  The code's estimate is not the spec's. -/
theorem speedEta_counterexample :
    codeRemainingSeconds 100 25 = 300
    ∧ specEta 2000 [(0, 0), (10, 400), (100, 500)] = some (2700 / 37)
    ∧ (300 : ℚ) ≠ 2700 / 37 := by
  refine ⟨by norm_num [codeRemainingSeconds], specEta_sample, by norm_num⟩

/-- C7 (amended): the code has no transfer-speed estimator and no rolling
window; its time-remaining figure is linear extrapolation from the
percent alone, `elapsed * (100 - p) / p`, and a line whose percent is 0
produces no estimate (the raw line is kept instead). -/
theorem speedEta_amended :
    (∀ (elapsed : ℚ) (p : Nat), 0 < p →
      codeRemainingSeconds elapsed p = elapsed * (100 - (p : ℚ)) / p)
    ∧ downloadProgressStatus 100 25 = "Downloading: 25% complete, ~5m 0s remaining"
    ∧ downloadStatusLine 50 "0%" = some "0%" := by
  refine ⟨?_, ?_, by decide⟩
  case refine_2 =>
    simp only [downloadProgressStatus, pyInt_sample]
    decide
  intro elapsed p hp
  have hne : (p : ℚ) ≠ 0 := by positivity
  unfold codeRemainingSeconds
  field_simp
  ring

/-- C7 (witness for the amended theorem): the extrapolation formula at
elapsed = 100 s and percent = 25. -/
theorem speedEta_amended_witness :
    codeRemainingSeconds 100 25 = 100 * (100 - ((25 : Nat) : ℚ)) / ((25 : Nat) : ℚ) :=
  speedEta_amended.1 100 25 (by norm_num)

/-- C9 (counterexample): the claim says stdout lines containing the
literal username are suppressed from the captured log in non-anonymous
sessions; but the capture loop (`common.py` lines 504-538) never consults
the username — with username `myuser` and a non-anonymous session, the
line `Logged in as myuser` appears verbatim in the captured log. -/
theorem username_suppression_counterexample :
    statusMessagesFor "myuser" false [(1, "Logged in as myuser")]
      = ["Logged in as myuser"]
    ∧ strContains "Logged in as myuser" "myuser" = true := by
  decide

/-- C9 (amended): the captured status log is independent of the username
and the anonymous flag — no suppression of any kind exists — and every
line without `'%'` is captured verbatim (stripped), whether or not it
contains the username. -/
theorem username_suppression_amended :
    (∀ (u u' : String) (a a' : Bool) (lines : List (ℚ × String)),
      statusMessagesFor u a lines = statusMessagesFor u' a' lines)
    ∧ (∀ (u : String) (a : Bool) (e : ℚ) (line : String),
      strContains line "%" = false →
        statusMessagesFor u a [(e, line)] = [pyStrip line]) := by
  constructor
  · intro u u' a a' lines
    rfl
  · intro u a e line h
    simp [statusMessagesFor, downloadStatusLine, h]

/-- C9 (witness for the amended theorem): a non-anonymous session
captures a `'%'`-free line verbatim. -/
theorem username_suppression_amended_witness :
    statusMessagesFor "myuser" false [(0, "Connecting anonymously to Steam")]
      = [pyStrip "Connecting anonymously to Steam"] :=
  username_suppression_amended.2 "myuser" false 0
    "Connecting anonymously to Steam" (by decide)

/-! ## System check (`common.py` lines 91-101, 235-285)

`system_check` accumulates a `messages` list and joins it with newlines.
Every fallible sub-call is wrapped: `get_available_space` catches its own
exceptions and returns 0, the 7z invocation and the write-probe section
each sit in `try`/`except`, and the remaining calls (`os.path.exists`,
`os.access`, `shutil.which`) do not raise.  The environment is an
explicit oracle, so the embedded check is a total function — the Python
original returns a report for every environment state. -/

theorem subAt_append (a b : List Char) : subAt a (a ++ b) = true := by
  induction a with
  | nil => simp [subAt]
  | cons c t ih => simp [subAt, ih]

theorem subAt_str_prefix (p rest : String) :
    subAt p.toList ((p ++ rest).toList) = true := by
  show subAt p.toList (p.toList ++ rest.toList) = true
  exact subAt_append _ _

/-- Outcome of every environment probe `system_check` performs. -/
structure SysEnv where
  /-- Parsed free space in KiB from `df -k` row 1 column 3, or none when
  the subprocess fails, output is short, or parsing raises. -/
  dfOutput : Option Nat
  steamcmdExists : Bool
  steamcmdExecutable : Bool
  sevenZipOnPath : Bool
  /-- `subprocess.run(['7z', '--help'])`: return code, or the raised
  exception's text. -/
  sevenZipRun : Except String Int
  /-- The write-probe loop over `./logs`, `./output`, `./game`: ok, or
  the first raised exception's text. -/
  writeProbe : Except String Unit

/-- `get_available_space` (`common.py` lines 91-101): KiB * 1024 on
success, 0 on any failure. -/
def getAvailableSpace (df : Option Nat) : Nat :=
  match df with
  | some kb => kb * 1024
  | none => 0

/-- The `f"{space/1024**3:.2f}"` rendering of `system_check`'s
disk-space line, modelled with exact integer hundredths (the Python
float formatting may round the last digit differently; no claim depends
on the digits). -/
def formatGB (bytes : Nat) : String :=
  let hundredths := bytes * 100 / 1024 ^ 3
  toString (hundredths / 100) ++ "." ++
    (if hundredths % 100 < 10 then "0" else "") ++ toString (hundredths % 100)

/-- Disk-space messages (`common.py` lines 241-244). -/
def diskMsgs (space : Nat) : List String :=
  ["Available Disk Space: " ++ (formatGB space ++ " GB")] ++
    (if space < 10 * 1024 ^ 3 then
      ["WARNING: Less than 10GB available disk space!"] else [])

/-- SteamCMD messages (`common.py` lines 247-255). -/
def steamcmdMsgs (present executable : Bool) : List String :=
  if present then
    ["steamcmd found."] ++
      (if executable then ["steamcmd is executable."]
       else ["WARNING: steamcmd is not executable! Run: chmod +x ./steamcmd/steamcmd.sh"])
  else ["ERROR: steamcmd not found in ./steamcmd"]

/-- 7z messages (`common.py` lines 258-269). -/
def sevenZipMsgs (onPath : Bool) (run : Except String Int) : List String :=
  if onPath then
    ["7z found."] ++
      (match run with
       | .ok rc =>
         if rc = 0 then ["7z is working correctly."]
         else ["WARNING: 7z installation may have issues."]
       | .error _ => ["WARNING: 7z is installed but may not be working correctly."])
  else ["ERROR: 7z not found."]

/-- Write-permission messages (`common.py` lines 272-283). -/
def writeMsgs (probe : Except String Unit) : List String :=
  match probe with
  | .ok _ => ["Write permissions verified for all required directories."]
  | .error e => ["ERROR: Write permission issue: " ++ e]

/-- The `messages` list of `system_check` (`common.py` lines 235-285),
in source append order. -/
def systemCheckMessages (env : SysEnv) : List String :=
  ["System Check:"] ++ diskMsgs (getAvailableSpace env.dfOutput)
    ++ steamcmdMsgs env.steamcmdExists env.steamcmdExecutable
    ++ sevenZipMsgs env.sevenZipOnPath env.sevenZipRun
    ++ writeMsgs env.writeProbe

/-- `system_check`'s return value: `"\n".join(messages)`. -/
def systemCheck (env : SysEnv) : String :=
  String.intercalate "\x0a" (systemCheckMessages env)

/-- C8: for every environment state — tools present or missing,
directories writable or not, disk-space query failing — `system_check`
is a total function (the embedding needs no error monad because every
fallible sub-call is caught in the source) and its report classifies
every checked condition: it opens with `System Check:`, contains a
disk-space line, a steamcmd found/not-found classification, a 7z
found/not-found classification, and a write-permission
verified/error classification. -/
theorem systemCheck_never_raises (env : SysEnv) :
    (systemCheckMessages env).head? = some "System Check:"
    ∧ (∃ m ∈ systemCheckMessages env,
        subAt "Available Disk Space: ".toList m.toList = true)
    ∧ ("steamcmd found." ∈ systemCheckMessages env
        ∨ "ERROR: steamcmd not found in ./steamcmd" ∈ systemCheckMessages env)
    ∧ ("7z found." ∈ systemCheckMessages env
        ∨ "ERROR: 7z not found." ∈ systemCheckMessages env)
    ∧ ("Write permissions verified for all required directories."
          ∈ systemCheckMessages env
        ∨ ∃ m ∈ systemCheckMessages env,
            subAt "ERROR: Write permission issue: ".toList m.toList = true)
    ∧ systemCheck env = String.intercalate "\x0a" (systemCheckMessages env) := by
  refine ⟨by simp [systemCheckMessages], ?_, ?_, ?_, ?_, rfl⟩
  · refine ⟨"Available Disk Space: " ++
      (formatGB (getAvailableSpace env.dfOutput) ++ " GB"), ?_,
      subAt_str_prefix _ _⟩
    simp [systemCheckMessages, diskMsgs]
  · cases hse : env.steamcmdExists
    · right; simp [systemCheckMessages, steamcmdMsgs, hse]
    · left; simp [systemCheckMessages, steamcmdMsgs, hse]
  · cases hsz : env.sevenZipOnPath
    · right; simp [systemCheckMessages, sevenZipMsgs, hsz]
    · left; simp [systemCheckMessages, sevenZipMsgs, hsz]
  · cases hwp : env.writeProbe with
    | ok u => left; simp [systemCheckMessages, writeMsgs, hwp]
    | error e =>
      right
      refine ⟨"ERROR: Write permission issue: " ++ e, ?_, subAt_str_prefix _ _⟩
      simp [systemCheckMessages, writeMsgs, hwp]

/-! ## Output path verification (`common.py` lines 103-138)

`verify_output_path` first rejects non-absolute paths (POSIX
`os.path.isabs`: leading `/`) before touching the filesystem; for
absolute paths it computes `os.path.dirname`, creates the parent
directory when missing, and probes writability by creating and deleting
a random-named test file.  Filesystem outcomes are an oracle; the
returned value pairs the message with the list of filesystem operations
attempted, in order. -/

/-- POSIX `os.path.isabs`. -/
def isAbs (p : String) : Bool :=
  match p.toList with
  | '/' :: _ => true
  | _ => false

/-- Index of the last `'/'` in the list, scanning from offset `i`. -/
def lastSlashIdxAux : List Char → Nat → Option Nat
  | [], _ => none
  | c :: t, i =>
    match lastSlashIdxAux t (i + 1) with
    | some j => some j
    | none => if c = '/' then some i else none

/-- POSIX `os.path.dirname`: everything before the final `'/'`, with
trailing slashes stripped unless the head is all slashes. -/
def dirname (p : String) : String :=
  let l := p.toList
  let i := match lastSlashIdxAux l 0 with
           | some j => j + 1
           | none => 0
  let head := l.take i
  if !head.isEmpty && !(head.all fun c => c = '/') then
    String.mk ((head.reverse.dropWhile fun c => c = '/').reverse)
  else String.mk head

/-- POSIX `os.path.join` for the case used here (second component
relative and nonempty). -/
def pathJoin (a b : String) : String :=
  if isAbs b then b
  else if a = "" then b
  else if a.toList.getLast? = some '/' then a ++ b else a ++ "/" ++ b

/-- A Python exception as `verify_output_path` distinguishes them. -/
inductive PyErr where
  | permissionError
  | other (msg : String)
deriving DecidableEq, Repr

/-- A filesystem operation attempted by `verify_output_path`. -/
inductive FsEffect where
  | makeDirs (dir : String)
  | writeFile (path : String)
  | removeFile (path : String)
deriving DecidableEq, Repr

/-- Oracle for the filesystem outcomes `verify_output_path` can
encounter. -/
structure FsEnv where
  parentExists : Bool
  mkdirResult : Except PyErr Unit
  writeResult : Except PyErr Unit
  removeResult : Except PyErr Unit

/-- `verify_output_path` (`common.py` lines 103-138): message returned
and filesystem operations attempted, in order.  `probeToken` is
`secrets.token_hex(4)`. -/
def verifyOutputPath (fs : FsEnv) (probeToken : String)
    (outputPath : String) : String × List FsEffect :=
  if isAbs outputPath = false then
    ("Error: Output path must be absolute.", [])
  else
    let parent := dirname outputPath
    let test := pathJoin parent (".test_write_" ++ probeToken)
    let probe : List FsEffect → String × List FsEffect := fun effs =>
      match fs.writeResult with
      | .error .permissionError =>
        ("Error: No write permission for directory: " ++ parent,
         effs ++ [.writeFile test])
      | .error (.other e) =>
        ("Error: Could not create or write to directory: " ++ e,
         effs ++ [.writeFile test])
      | .ok _ =>
        match fs.removeResult with
        | .error .permissionError =>
          ("Error: No write permission for directory: " ++ parent,
           effs ++ [.writeFile test, .removeFile test])
        | .error (.other e) =>
          ("Error: Could not create or write to directory: " ++ e,
           effs ++ [.writeFile test, .removeFile test])
        | .ok _ =>
          ("Output path verified successfully.",
           effs ++ [.writeFile test, .removeFile test])
    if fs.parentExists then probe []
    else
      match fs.mkdirResult with
      | .error .permissionError =>
        ("Error: No write permission for directory: " ++ parent,
         [.makeDirs parent])
      | .error (.other e) =>
        ("Error: Could not create or write to directory: " ++ e,
         [.makeDirs parent])
      | .ok _ => probe [.makeDirs parent]

/-- C10: a non-absolute output path yields exactly the message
`Error: Output path must be absolute.` with no filesystem operation of
any kind; an absolute path performs the write-then-delete probe (in an
existing parent directory) and, when the parent is missing, attempts to
create it first. -/
theorem verifyOutputPath_absolute_guard (fs : FsEnv) (tok path : String) :
    (isAbs path = false →
      verifyOutputPath fs tok path = ("Error: Output path must be absolute.", []))
    ∧ (isAbs path = true → fs.parentExists = true →
        fs.writeResult = .ok () → fs.removeResult = .ok () →
      verifyOutputPath fs tok path
        = ("Output path verified successfully.",
           [.writeFile (pathJoin (dirname path) (".test_write_" ++ tok)),
            .removeFile (pathJoin (dirname path) (".test_write_" ++ tok))]))
    ∧ (isAbs path = true → fs.parentExists = false → fs.mkdirResult = .ok () →
      (verifyOutputPath fs tok path).2.head?
        = some (.makeDirs (dirname path))) := by
  refine ⟨?_, ?_, ?_⟩
  · intro h
    simp [verifyOutputPath, h]
  · intro h hp hw hr
    simp [verifyOutputPath, h, hp, hw, hr]
  · intro h hp hm
    simp [verifyOutputPath, h, hp, hm]
    cases hw : fs.writeResult with
    | ok u => cases hr : fs.removeResult with
      | ok v => simp
      | error e => cases e <;> simp
    | error e => cases e <;> simp

/-- C10 (witness): the guard at a relative and an absolute concrete
path. -/
theorem verifyOutputPath_absolute_guard_witness :
    verifyOutputPath ⟨true, .ok (), .ok (), .ok ()⟩ "ab12" "relative/out.7z"
      = ("Error: Output path must be absolute.", [])
    ∧ verifyOutputPath ⟨true, .ok (), .ok (), .ok ()⟩ "ab12" "/data/out.7z"
      = ("Output path verified successfully.",
         [.writeFile "/data/.test_write_ab12",
          .removeFile "/data/.test_write_ab12"]) :=
  ⟨(verifyOutputPath_absolute_guard ⟨true, .ok (), .ok (), .ok ()⟩
      "ab12" "relative/out.7z").1 (by decide),
   (verifyOutputPath_absolute_guard ⟨true, .ok (), .ok (), .ok ()⟩
      "ab12" "/data/out.7z").2.1 (by decide) rfl rfl rfl⟩

end GameDL
